import Mathlib

/-!
Shallow embedding of the batch-fetch pipeline of the `web_scraper` repository
(`batch_manager.py`, `driver_pool.py`, `regenerate_indexes.py`,
`project_scraper_optimized.py`), together with theorems settling the frozen
claims about it.

Conventions of the embedding:
* pandas DataFrames (the progress table) become `List` of row structures and
  the column-mask assignments become `List.map` with a row-level conditional;
* Python dicts keyed by insertion order (`defaultdict(list)`) become
  association lists with an append-into-first-matching-bucket operation;
* `datetime.now()` timestamps are explicit `String` parameters (format
  `YYYYmmdd_HHMMSS` or `YYYY-mm-dd HH:MM:SS` as in the source);
* Python `str.strip()` is modelled by the structurally recursive `py_strip`
  (drop leading and trailing whitespace characters), so that concrete
  index contents are kernel-computable;
* the WebDriver pool's `Queue` becomes a FIFO `List` (front = next `get`) and
  the `busy_drivers` set becomes a `Finset Nat` with handles named by `Nat`.
-/

/-- Embeds `ScrapeStatus` of `batch_manager.py`: the four-state enum whose
`.value` strings are what the progress table stores. -/
inductive ScrapeStatus where
  | pending
  | processing
  | completed
  | failed
deriving DecidableEq, Repr

/-- The `.value` string of a `ScrapeStatus` member, as written into the
progress CSV by the source. -/
def ScrapeStatus.value : ScrapeStatus → String
  | .pending => "pending"
  | .processing => "processing"
  | .completed => "completed"
  | .failed => "failed"

/-- One row of `master_projects.csv` as `BatchManager` reads it: the
authoritative catalog entry (`master_project[...]` accesses in
`_merge_completed_data` and `start_batch`). -/
structure MasterProject where
  project_id : String
  url : String
  title : String
  brand : String
  agency : String
  publish_date : String
  last_updated : String
deriving DecidableEq, Repr

/-- One row of `scraped_projects.csv`, the per-item progress table created by
`BatchManager._initialize_scraped_projects`. -/
structure ScrapedRow where
  project_id : String
  url : String
  scrape_status : String
  batch_id : String
  scraped_at : String
  retry_count : Nat
  error_message : String
deriving DecidableEq, Repr

/-- The `BatchInfo` dataclass of `batch_manager.py` (the `created_at`,
`success_count` and `failed_count` bookkeeping fields are carried verbatim). -/
structure BatchInfo where
  batch_id : String
  start_index : Nat
  end_index : Nat
  project_count : Nat
  status : ScrapeStatus
  created_at : String := ""
  completed_at : String := ""
  success_count : Nat := 0
  failed_count : Nat := 0
deriving DecidableEq, Repr

/-- The `batch_status` dict persisted to `batch_status.json`
(`_load_batch_status`); `last_update_time` is timestamp bookkeeping and is
kept as a plain field. -/
structure BatchStatus where
  current_batch : Nat
  total_batches : Nat
  total_projects : Nat
  completed_batches : List String
  batch_size : Nat
  last_update_time : String := ""
deriving DecidableEq, Repr

/-- The fresh `batch_status` built by `_load_batch_status` when no status file
exists: cursor 1 and `total_batches = (n + batch_size - 1) // batch_size`. -/
def init_batch_status (total_projects batch_size : Nat) : BatchStatus :=
  { current_batch := 1
    total_batches := (total_projects + batch_size - 1) / batch_size
    total_projects := total_projects
    completed_batches := []
    batch_size := batch_size }

/-- Python `f"{c:03d}"`: decimal rendering left-padded with zeros to width
three, as used for batch ids in `get_next_batch`. -/
def format03 (c : Nat) : String :=
  let s := toString c
  String.mk (List.replicate (3 - s.length) '0') ++ s

/-- `BatchManager.get_next_batch`: `None` once the cursor passes
`total_batches`, otherwise the positional slice
`[(current_batch-1)*batch_size, min(current_batch*batch_size, master_count))`.
`master_count` stands for `len(self.master_projects)` and `now` for the
`created_at` timestamp. -/
def get_next_batch (st : BatchStatus) (batch_size master_count : Nat)
    (now : String) : Option BatchInfo :=
  if st.current_batch > st.total_batches then
    none
  else
    let start_index := (st.current_batch - 1) * batch_size
    let end_index := min (start_index + batch_size) master_count
    some { batch_id := format03 st.current_batch
           start_index := start_index
           end_index := end_index
           project_count := end_index - start_index
           status := ScrapeStatus.pending
           created_at := now }

/-- The scheduler-state part of `BatchManager.complete_batch`: the batch id is
appended to `completed_batches` and the cursor advances by one. -/
def complete_batch_status (st : BatchStatus) (batch_id : String) : BatchStatus :=
  { st with
    completed_batches := st.completed_batches ++ [batch_id]
    current_batch := st.current_batch + 1 }

/-- The project ids of the slice `master_projects[start_index:end_index]`
that `start_batch` masks the progress table with. -/
def batch_project_ids (master : List MasterProject) (binfo : BatchInfo) :
    List String :=
  (((master.drop binfo.start_index).take
      (binfo.end_index - binfo.start_index)).map MasterProject.project_id)

/-- `BatchManager.start_batch` on the progress table: every row whose
`project_id` is in the batch slice gets `scrape_status := "processing"` and
`batch_id := binfo.batch_id`; other rows are untouched. -/
def start_batch (master : List MasterProject) (table : List ScrapedRow)
    (binfo : BatchInfo) : List ScrapedRow :=
  let ids := batch_project_ids master binfo
  table.map fun r =>
    if r.project_id ∈ ids then
      { r with
        scrape_status := ScrapeStatus.processing.value
        batch_id := binfo.batch_id }
    else r

/-- `BatchManager.complete_project`: on success the matching rows become
`completed` with a fresh `scraped_at` and cleared `error_message`; on failure
they become `failed`, `retry_count` is incremented and the error text stored. -/
def complete_project (table : List ScrapedRow) (project_id : String)
    (success : Bool) (now error_message : String) : List ScrapedRow :=
  table.map fun r =>
    if r.project_id = project_id then
      if success then
        { r with
          scrape_status := ScrapeStatus.completed.value
          scraped_at := now
          error_message := "" }
      else
        { r with
          scrape_status := ScrapeStatus.failed.value
          retry_count := r.retry_count + 1
          error_message := error_message }
    else r

/-- `BatchManager.reset_failed_projects`: rows whose status is `"failed"` go
back to `"pending"` with cleared `batch_id` and `error_message`; every other
column (in particular `retry_count`) is untouched. -/
def reset_failed_projects (table : List ScrapedRow) : List ScrapedRow :=
  table.map fun r =>
    if r.scrape_status = ScrapeStatus.failed.value then
      { r with
        scrape_status := ScrapeStatus.pending.value
        batch_id := ""
        error_message := "" }
    else r

/-- One scraped record as stored in a batch output file (the dicts of
`combined_data` in `_merge_completed_data` and of `batch_projects` in
`IndexRegenerator._merge_data`). Keys a page may lack are `Option`;
`batch_tag` is the `'_batch'` key that `_load_all_batch_data` injects.
The opaque `project_info` sub-dict is carried as an association list. -/
structure ScrapedProject where
  id : String
  scraped_at : String := ""
  url : Option String := none
  title : Option String := none
  brand : Option String := none
  agency : Option String := none
  publish_date : Option String := none
  description : Option String := none
  images : List String := []
  category : Option String := none
  keywords : List String := []
  industry : Option String := none
  campaign_type : Option String := none
  project_info : List (String × String) := []
  batch_tag : Option String := none
deriving DecidableEq, Repr

/-- The page-derived keys that `_merge_completed_data` copies (with `.get`
defaults) into a merged record when a scraped record for the id exists. -/
structure ScrapedExtras where
  description : String
  images : List String
  category : String
  keywords : List String
  industry : String
  campaign_type : String
  project_info : List (String × String)
deriving DecidableEq, Repr

/-- The `merged_project.update({...})` payload of `_merge_completed_data`. -/
def scraped_extras (p : ScrapedProject) : ScrapedExtras :=
  { description := p.description.getD ""
    images := p.images
    category := p.category.getD ""
    keywords := p.keywords
    industry := p.industry.getD ""
    campaign_type := p.campaign_type.getD ""
    project_info := p.project_info }

/-- One record of `combined_projects.json` as built by
`_merge_completed_data`: catalog fields always present, page-derived keys
present exactly when a scraped record was found (`extra = some _`). -/
structure CombinedProject where
  id : String
  url : String
  title : String
  brand : String
  agency : String
  publish_date : String
  last_updated : String
  extra : Option ScrapedExtras
deriving DecidableEq, Repr

/-- The merge loop of `BatchManager._merge_completed_data`: for each catalog
row, the first record of `combined` with matching id
(`next((p for p in combined_data if p.get('id') == project_id), None)`) is
looked up, the catalog fields are written, and the page-derived keys are added
only when that lookup succeeded. `combined` is the concatenation, in
`completed_batches` order, of the projects of the file chosen for each batch
id. -/
def merge_completed_data (master : List MasterProject)
    (combined : List ScrapedProject) : List CombinedProject :=
  master.map fun m =>
    let scraped := combined.find? fun p => p.id == m.project_id
    { id := m.project_id
      url := m.url
      title := m.title
      brand := m.brand
      agency := m.agency
      publish_date := m.publish_date
      last_updated := m.last_updated
      extra := scraped.map scraped_extras }

/-- One record of the merged list built by `IndexRegenerator._merge_data`
(also the input shape of `_generate_global_index`). -/
structure MergedIdxProject where
  id : String := ""
  url : String := ""
  title : String := ""
  brand : String := ""
  agency : String := ""
  publish_date : String := ""
  description : String := ""
  images : List String := []
  category : String := ""
  keywords : List String := []
  industry : String := ""
  campaign_type : String := ""
  project_info : List (String × String) := []
  batch : String := ""
deriving DecidableEq, Repr

/-- The per-record body of `IndexRegenerator._merge_data`: each field is
`project.get(key, master_info.get(key, ''))` — the scraped value wins whenever
the key is present, the catalog row (possibly absent, `mi = none`) is only the
fallback. -/
def merge_data_one (p : ScrapedProject) (mi : Option MasterProject) :
    MergedIdxProject :=
  { id := p.id
    url := p.url.getD ((mi.map MasterProject.url).getD "")
    title := p.title.getD ((mi.map MasterProject.title).getD "")
    brand := p.brand.getD ((mi.map MasterProject.brand).getD "")
    agency := p.agency.getD ((mi.map MasterProject.agency).getD "")
    publish_date := p.publish_date.getD ((mi.map MasterProject.publish_date).getD "")
    description := p.description.getD ""
    images := p.images
    category := p.category.getD ""
    keywords := p.keywords
    industry := p.industry.getD ""
    campaign_type := p.campaign_type.getD ""
    project_info := p.project_info
    batch := p.batch_tag.getD "" }

/-- `IndexRegenerator._merge_data`: the batch records in order, each merged
against the master dict entry for its id (dict lookup modelled as first match,
the key set of a CSV-derived dict being duplicate-free). -/
def merge_data (batch_projects : List ScrapedProject)
    (master : List MasterProject) : List MergedIdxProject :=
  batch_projects.map fun p =>
    merge_data_one p (master.find? fun m => m.project_id == p.id)

/-- The filename `complete_batch` writes under `output/details`:
`batch_{batch_id}_{timestamp}.json`, where `now` is
`datetime.now().strftime('%Y%m%d_%H%M%S')` (second resolution). The batch
results are part of the invocation but do not influence the name. -/
def complete_batch_file_name (binfo : BatchInfo)
    (batch_results : List ScrapedProject) (now : String) : String :=
  "batch_" ++ binfo.batch_id ++ "_" ++ now ++ ".json"

/-- The filename `ProjectDetailScraperOptimized.save_batch_data` writes:
`projects_batch_{batch_id}_{timestamp}.json` with the same second-resolution
timestamp format. -/
def save_batch_data_file_name (batch_id : String) (now : String) : String :=
  "projects_batch_" ++ batch_id ++ "_" ++ now ++ ".json"

/-- Python `str.strip()` on the strings these index builders handle: drop
leading and trailing whitespace characters (structural recursion so concrete
instances compute). -/
def py_strip (s : String) : String :=
  String.mk
    (((s.data.dropWhile Char.isWhitespace).reverse.dropWhile
        Char.isWhitespace).reverse)

/-- The `project_ref` dict of `_generate_global_index` (its `score` key is the
constant float `1.0` and carries no information, so it is not modelled). -/
structure ProjectRef where
  batch : String
  id : String
  title : String
deriving DecidableEq, Repr

/-- `ProjectRef` built for a project in `_generate_global_index`. -/
def project_ref_of (p : MergedIdxProject) : ProjectRef :=
  { batch := p.batch, id := p.id, title := p.title }

/-- A `defaultdict(list)` of project refs: an association list in key
insertion order. -/
abbrev RefIndex := List (String × List ProjectRef)

/-- `index[key].append(ref)` on a `defaultdict(list)`: append into the bucket
of `key`, creating it at the end on first use. -/
def index_add (idx : RefIndex) (key : String) (ref : ProjectRef) : RefIndex :=
  match idx with
  | [] => [(key, [ref])]
  | (k, refs) :: rest =>
      if k = key then (k, refs ++ [ref]) :: rest
      else (k, refs) :: index_add rest key ref

/-- Bucket lookup on a `RefIndex` (`[]` for an absent key). -/
def index_get (idx : RefIndex) (key : String) : List ProjectRef :=
  match idx with
  | [] => []
  | (k, refs) :: rest => if k = key then refs else index_get rest key

/-- The four indices `_generate_global_index` builds. -/
structure GlobalSearchIndex where
  brand_index : RefIndex
  keyword_index : RefIndex
  category_index : RefIndex
  industry_index : RefIndex
deriving DecidableEq

/-- The empty index state at the top of `_generate_global_index`. -/
def empty_global_index : GlobalSearchIndex :=
  { brand_index := [], keyword_index := [], category_index := [], industry_index := [] }

/-- Brand step of `_generate_global_index`:
`brand = project.get('brand','').strip(); if brand: brand_index[brand].append(ref)` —
the key is the stripped value, with no lower-casing. -/
def brand_step (p : MergedIdxProject) (st : GlobalSearchIndex) : GlobalSearchIndex :=
  let b := (py_strip p.brand)
  if b ≠ "" then { st with brand_index := index_add st.brand_index b (project_ref_of p) }
  else st

/-- One keyword of the keyword loop:
`if keyword.strip(): keyword_index[keyword.strip()].append(ref)`. -/
def keyword_step (ref : ProjectRef) (st : GlobalSearchIndex) (kw : String) :
    GlobalSearchIndex :=
  if (py_strip kw) ≠ "" then
    { st with keyword_index := index_add st.keyword_index (py_strip kw) ref }
  else st

/-- Category step of `_generate_global_index`. -/
def category_step (p : MergedIdxProject) (st : GlobalSearchIndex) : GlobalSearchIndex :=
  let c := (py_strip p.category)
  if c ≠ "" then { st with category_index := index_add st.category_index c (project_ref_of p) }
  else st

/-- Industry step of `_generate_global_index`. -/
def industry_step (p : MergedIdxProject) (st : GlobalSearchIndex) : GlobalSearchIndex :=
  let i := (py_strip p.industry)
  if i ≠ "" then { st with industry_index := index_add st.industry_index i (project_ref_of p) }
  else st

/-- The loop body of `_generate_global_index` for one project, in source
order: brand, then every keyword, then category, then industry. -/
def index_one_project (st : GlobalSearchIndex) (p : MergedIdxProject) :
    GlobalSearchIndex :=
  industry_step p (category_step p
    (p.keywords.foldl (keyword_step (project_ref_of p)) (brand_step p st)))

/-- `IndexRegenerator._generate_global_index`: fold the loop body over the
merged projects starting from empty indices. -/
def generate_global_index (projects : List MergedIdxProject) : GlobalSearchIndex :=
  projects.foldl index_one_project empty_global_index

/-- State of the `DriverPool` of `driver_pool.py`: the FIFO `Queue`
`available_drivers` (front of the list = next `get`) and the `busy_drivers`
set, handles named by `Nat`. -/
structure PoolState where
  available : List Nat
  busy : Finset Nat
deriving DecidableEq

/-- `DriverPool.get_driver`: take the front idle handle; if the queue is empty
when the timeout elapses (`Empty` raised), fall back to `_create_driver`,
whose outcome is the `created` argument (`none` = creation raised). The
returned handle is added to `busy_drivers` before `get_driver` returns. -/
def get_driver (s : PoolState) (created : Option Nat) : Option (Nat × PoolState) :=
  match s.available with
  | d :: rest => some (d, { available := rest, busy := insert d s.busy })
  | [] =>
      match created with
      | some d => some (d, { s with busy := insert d s.busy })
      | none => none

/-- Outcome of the body of `_return_driver`'s `try` block for a handle:
`_is_driver_alive` true, `_is_driver_alive` false, or an exception reaching
the `except` clause. -/
inductive Health where
  | alive
  | dead
  | error
deriving DecidableEq, Repr

/-- `DriverPool._return_driver` with queue capacity `pool_size`: an alive
handle is discarded from `busy_drivers` and re-enqueued only when the queue is
not full, else closed; a dead handle and the exception path discard from
`busy_drivers` and close. The `Bool` is true when `_close_driver` ran. -/
def return_driver (pool_size : Nat) (s : PoolState) (d : Nat) (h : Health) :
    PoolState × Bool :=
  match h with
  | Health.alive =>
      let s1 : PoolState := { available := s.available, busy := s.busy.erase d }
      if s1.available.length < pool_size then
        ({ s1 with available := s1.available ++ [d] }, false)
      else (s1, true)
  | Health.dead => ({ available := s.available, busy := s.busy.erase d }, true)
  | Health.error => ({ available := s.available, busy := s.busy.erase d }, true)

/-! ## Helper lemmas -/

/-- `(a ++ b).data = a.data ++ b.data` for the string append of the filename
construction. -/
theorem string_data_append (a b : String) : (a ++ b).data = a.data ++ b.data := by
  cases a; cases b; rfl

/-- Strings with equal character data are equal. -/
theorem string_eq_of_data_eq {a b : String} (h : a.data = b.data) : a = b := by
  cases a; cases b; exact congrArg String.mk h

/-- The middle factor of `p ++ t ++ s` is determined by the whole string. -/
theorem string_append_inj_mid (p s t₁ t₂ : String)
    (h : p ++ t₁ ++ s = p ++ t₂ ++ s) : t₁ = t₂ := by
  have hd : p.data ++ (t₁.data ++ s.data) = p.data ++ (t₂.data ++ s.data) := by
    have h1 := congrArg String.data h
    simpa [string_data_append, List.append_assoc] using h1
  have h2 : t₁.data ++ s.data = t₂.data ++ s.data := List.append_cancel_left hd
  exact string_eq_of_data_eq (List.append_cancel_right h2)

/-- `find?` over `pre ++ r :: post` returns `r` when nothing in `pre`
satisfies the predicate and `r` does. -/
theorem find?_first {α : Type} (q : α → Bool) (pre post : List α) (r : α)
    (hpre : ∀ x ∈ pre, q x = false) (hr : q r = true) :
    (pre ++ r :: post).find? q = some r := by
  induction pre with
  | nil => simp [List.find?_cons, hr]
  | cons a tl ih =>
      have ha : q a = false := hpre a (by simp)
      simp only [List.cons_append, List.find?_cons, ha]
      exact ih fun x hx => hpre x (by simp [hx])

/-! ## Claim C1 -/

/-- **C1.** Batch scheduling is positional: with cursor `c` and
`total_batches = ⌈n/B⌉` (computed as `(n+B-1)/B`), `get_next_batch` returns
`none` exactly when `c` exceeds the total batch count, and otherwise returns
the batch covering `[(c-1)*B, min(c*B, n))`; moreover for a catalog of 120
items with batch size 50 the successive batches (the cursor advanced by
`complete_batch_status`) cover `[0,50)`, `[50,100)`, `[100,120)` and the
fourth call returns `none`. -/
theorem C1_next_batch_positional
    (st : BatchStatus) (n B c : Nat) (now : String)
    (hB : 0 < B) (hc : 1 ≤ c)
    (hcur : st.current_batch = c)
    (htot : st.total_batches = (n + B - 1) / B) :
    (get_next_batch st B n now = none ↔ c > (n + B - 1) / B) ∧
    (∀ b, get_next_batch st B n now = some b →
        b.start_index = (c - 1) * B ∧ b.end_index = min (c * B) n) ∧
    ((get_next_batch (init_batch_status 120 50) 50 120 "").map
        (fun b => (b.start_index, b.end_index)) = some (0, 50) ∧
      (get_next_batch (complete_batch_status (init_batch_status 120 50) "001")
          50 120 "").map (fun b => (b.start_index, b.end_index)) = some (50, 100) ∧
      (get_next_batch (complete_batch_status (complete_batch_status
          (init_batch_status 120 50) "001") "002") 50 120 "").map
        (fun b => (b.start_index, b.end_index)) = some (100, 120) ∧
      get_next_batch (complete_batch_status (complete_batch_status
          (complete_batch_status (init_batch_status 120 50) "001") "002") "003")
        50 120 "" = none) := by
  refine ⟨?_, ?_, by decide⟩
  · simp [get_next_batch, hcur, htot]
  · intro b hb
    by_cases hgt : st.current_batch > st.total_batches
    · simp [get_next_batch, hgt] at hb
    · simp only [get_next_batch, hgt, if_neg, ite_false] at hb
      have hmul : (c - 1) * B + B = c * B := by
        obtain ⟨c', rfl⟩ := Nat.exists_eq_add_of_le hc
        have h1 : 1 + c' - 1 = c' := by omega
        rw [h1, Nat.add_mul, Nat.one_mul, Nat.add_comm]
      cases hb
      constructor
      · simp [hcur]
      · simp [hcur, hmul]

/-- Witness for C1 at the concrete 120-item, batch-size-50 catalog. -/
theorem C1_next_batch_positional_witness :
    get_next_batch (init_batch_status 120 50) 50 120 "" = none ↔
      1 > (120 + 50 - 1) / 50 :=
  (C1_next_batch_positional (init_batch_status 120 50) 120 50 1 ""
    (by decide) (by decide) rfl (by decide)).1

/-! ## Claim C8 -/

/-- **C8.** `start_batch` is idempotent: after one call every row whose
project id lies in the batch's positional slice is `processing` with the
batch's id, and a second call with the same batch descriptor leaves the
progress table exactly as after the first call. -/
theorem C8_start_batch_idempotent
    (master : List MasterProject) (table : List ScrapedRow) (binfo : BatchInfo) :
    (∀ r ∈ start_batch master table binfo,
        r.project_id ∈ batch_project_ids master binfo →
          r.scrape_status = ScrapeStatus.processing.value ∧
          r.batch_id = binfo.batch_id) ∧
    start_batch master (start_batch master table binfo) binfo =
      start_batch master table binfo := by
  constructor
  · intro r hr hid
    simp only [start_batch, List.mem_map] at hr
    obtain ⟨r0, _, rfl⟩ := hr
    by_cases h : r0.project_id ∈ batch_project_ids master binfo
    · simp [h]
    · simp only [h, ite_false, if_neg] at hid ⊢
  · simp only [start_batch, List.map_map]
    apply List.map_congr_left
    intro r _
    by_cases h : r.project_id ∈ batch_project_ids master binfo
    · simp [Function.comp, h]
    · simp [Function.comp, h]

/-- Witness for C8: a one-item catalog and table, batch `[0,1)`. -/
theorem C8_start_batch_idempotent_witness :
    ({ project_id := "p1", url := "u", scrape_status := "processing",
       batch_id := "001", scraped_at := "", retry_count := 0,
       error_message := "" } : ScrapedRow).scrape_status
        = ScrapeStatus.processing.value ∧
    ({ project_id := "p1", url := "u", scrape_status := "processing",
       batch_id := "001", scraped_at := "", retry_count := 0,
       error_message := "" } : ScrapedRow).batch_id = "001" :=
  (C8_start_batch_idempotent
    [{ project_id := "p1", url := "u", title := "t", brand := "b",
       agency := "a", publish_date := "", last_updated := "" }]
    [{ project_id := "p1", url := "u", scrape_status := "pending",
       batch_id := "", scraped_at := "", retry_count := 0,
       error_message := "" }]
    { batch_id := "001", start_index := 0, end_index := 1,
      project_count := 1, status := ScrapeStatus.pending }).1
    _ (by decide) (by decide)

/-! ## Claim C9 -/

/-- **C9.** `complete_project` called with a project id that matches no row of
the progress table is a no-op: the table is returned unchanged, every column
of every tracked row included. -/
theorem C9_complete_project_unknown_noop
    (table : List ScrapedRow) (pid : String) (success : Bool)
    (now err : String)
    (h : ∀ r ∈ table, r.project_id ≠ pid) :
    complete_project table pid success now err = table := by
  revert h
  induction table with
  | nil => intro h; rfl
  | cons a tl ih =>
      intro h
      have ha : a.project_id ≠ pid := h a (by simp)
      have ih2 := ih fun r hr => h r (by simp [hr])
      simp only [complete_project, List.map_cons] at ih2 ⊢
      simp [ha, ih2]

/-- Witness for C9: a one-row table and an unknown project id. -/
theorem C9_complete_project_unknown_noop_witness :
    complete_project
      [{ project_id := "p1", url := "u", scrape_status := "pending",
         batch_id := "", scraped_at := "", retry_count := 0,
         error_message := "" }] "nonexistent" true "2025-01-01 00:00:00" ""
      = [{ project_id := "p1", url := "u", scrape_status := "pending",
           batch_id := "", scraped_at := "", retry_count := 0,
           error_message := "" }] :=
  C9_complete_project_unknown_noop _ _ _ _ _ (by decide)

/-! ## Claim C10 -/

/-- **C10.** `retry_count` is non-decreasing: `complete_project` increments it
by exactly one for the matching row when `success = false` and leaves it
unchanged otherwise, and `reset_failed_projects` resets the status, batch id
and error message of failed rows to pending/empty while leaving every row's
`retry_count` unchanged. -/
theorem C10_retry_count_monotone
    (table : List ScrapedRow) (pid : String) (success : Bool)
    (now err : String) (i : Nat) (hi : i < table.length) :
    ((complete_project table pid success now err).get
        ⟨i, by simpa [complete_project] using hi⟩).retry_count
      = (if (table.get ⟨i, hi⟩).project_id = pid ∧ success = false
          then (table.get ⟨i, hi⟩).retry_count + 1
          else (table.get ⟨i, hi⟩).retry_count) ∧
    (table.get ⟨i, hi⟩).retry_count ≤
      ((complete_project table pid success now err).get
        ⟨i, by simpa [complete_project] using hi⟩).retry_count ∧
    ((reset_failed_projects table).get
        ⟨i, by simpa [reset_failed_projects] using hi⟩).retry_count
      = (table.get ⟨i, hi⟩).retry_count ∧
    ((table.get ⟨i, hi⟩).scrape_status = ScrapeStatus.failed.value →
      ((reset_failed_projects table).get
          ⟨i, by simpa [reset_failed_projects] using hi⟩).scrape_status
          = ScrapeStatus.pending.value ∧
      ((reset_failed_projects table).get
          ⟨i, by simpa [reset_failed_projects] using hi⟩).batch_id = "" ∧
      ((reset_failed_projects table).get
          ⟨i, by simpa [reset_failed_projects] using hi⟩).error_message = "") := by
  simp only [complete_project, reset_failed_projects, List.get_eq_getElem,
    List.getElem_map]
  by_cases h1 : table[i].project_id = pid <;>
    by_cases h2 : success <;>
      by_cases h3 : table[i].scrape_status = ScrapeStatus.failed.value <;>
        simp [h1, h2, h3]

/-- Witness for C10: a failed completion on a one-row table. -/
theorem C10_retry_count_monotone_witness :
    ((complete_project
        [{ project_id := "p1", url := "u", scrape_status := "processing",
           batch_id := "001", scraped_at := "", retry_count := 2,
           error_message := "" }] "p1" false "" "boom").get
      ⟨0, by simp [complete_project]⟩).retry_count
      = (if (([{ project_id := "p1", url := "u",
                 scrape_status := "processing", batch_id := "001",
                 scraped_at := "", retry_count := 2,
                 error_message := "" }] : List ScrapedRow).get
            ⟨0, by simp⟩).project_id = "p1" ∧ false = false
          then (([{ project_id := "p1", url := "u",
                    scrape_status := "processing", batch_id := "001",
                    scraped_at := "", retry_count := 2,
                    error_message := "" }] : List ScrapedRow).get
            ⟨0, by simp⟩).retry_count + 1
          else (([{ project_id := "p1", url := "u",
                    scrape_status := "processing", batch_id := "001",
                    scraped_at := "", retry_count := 2,
                    error_message := "" }] : List ScrapedRow).get
            ⟨0, by simp⟩).retry_count) :=
  (C10_retry_count_monotone
    [{ project_id := "p1", url := "u", scrape_status := "processing",
       batch_id := "001", scraped_at := "", retry_count := 2,
       error_message := "" }] "p1" false "" "boom" 0 (by simp)).1

/-! ## Claim C6 -/

/-- **C6.** `get_driver` never fails on an empty idle queue: when the queue is
empty at timeout it returns the freshly created overflow handle (so the call
fails only when handle creation itself fails), and every handle it returns is
in the busy set of the resulting state. -/
theorem C6_get_driver_overflow (s : PoolState) (created : Option Nat) :
    (∀ d s2, get_driver s created = some (d, s2) → d ∈ s2.busy) ∧
    (s.available = [] → ∀ d, created = some d →
        get_driver s created = some (d, { s with busy := insert d s.busy })) ∧
    (get_driver s created = none ↔ s.available = [] ∧ created = none) := by
  obtain ⟨avail, busy⟩ := s
  cases avail with
  | nil =>
      cases created with
      | none => simp [get_driver]
      | some d0 =>
          refine ⟨?_, ?_, by simp [get_driver]⟩
          · intro d s2 h
            simp only [get_driver] at h
            cases h
            exact Finset.mem_insert_self d0 busy
          · intro _ d hd
            cases hd
            simp [get_driver]
  | cons a rest =>
      refine ⟨?_, by simp, by simp [get_driver]⟩
      intro d s2 h
      simp only [get_driver] at h
      cases h
      exact Finset.mem_insert_self a busy

/-- Witness for C6: empty idle queue, successful overflow creation of
handle 5. -/
theorem C6_get_driver_overflow_witness :
    get_driver { available := [], busy := (∅ : Finset Nat) } (some 5)
      = some (5, { available := [],
                   busy := insert 5 (∅ : Finset Nat) }) :=
  (C6_get_driver_overflow { available := [], busy := (∅ : Finset Nat) }
    (some 5)).2.1 rfl 5 rfl

/-! ## Claim C7 -/

/-- **C7.** `return_driver` invariants: the handle is removed from the busy
set in every case (health-check exception included); a dead handle is never
placed into the idle queue and is destroyed; an alive handle is re-enqueued
exactly when the idle queue is below capacity and destroyed otherwise. -/
theorem C7_return_driver_invariants
    (pool_size : Nat) (s : PoolState) (d : Nat) (h : Health) :
    d ∉ (return_driver pool_size s d h).1.busy ∧
    (h = Health.dead ∨ h = Health.error →
        (return_driver pool_size s d h).2 = true ∧
        (return_driver pool_size s d h).1.available = s.available) ∧
    (h = Health.alive →
        if s.available.length < pool_size then
          (return_driver pool_size s d h).1.available = s.available ++ [d] ∧
          (return_driver pool_size s d h).2 = false
        else
          (return_driver pool_size s d h).1.available = s.available ∧
          (return_driver pool_size s d h).2 = true) := by
  cases h with
  | alive =>
      by_cases hlen : s.available.length < pool_size <;>
        simp [return_driver, hlen, Finset.not_mem_erase]
  | dead => simp [return_driver, Finset.not_mem_erase]
  | error => simp [return_driver, Finset.not_mem_erase]

/-- Witness for C7: releasing dead handle 3 from a pool where it was busy. -/
theorem C7_return_driver_invariants_witness :
    (return_driver 3 { available := [1], busy := {3} } 3 Health.dead).2 = true ∧
    (return_driver 3 { available := [1], busy := {3} } 3 Health.dead).1.available
      = ({ available := [1], busy := {3} } : PoolState).available :=
  (C7_return_driver_invariants 3 { available := [1], busy := {3} } 3
    Health.dead).2.1 (Or.inl rfl)

/-! ## Claim C2 -/

/-- **C2 counterexample.** The batch output filename is a function of the
batch id and the second-resolution timestamp only: two distinct invocations of
`complete_batch` with the same batch id that fall in the same clock second
(same `%Y%m%d_%H%M%S` string) produce the same filename, so the second one
overwrites the first — the claimed collision-freedom over *every* pair of
distinct invocations fails. -/
theorem C2_counterexample :
    complete_batch_file_name
        { batch_id := "001", start_index := 0, end_index := 50,
          project_count := 50, status := ScrapeStatus.pending }
        [] "20250101_120000"
      = complete_batch_file_name
        { batch_id := "001", start_index := 0, end_index := 50,
          project_count := 50, status := ScrapeStatus.pending }
        [{ id := "p1" }] "20250101_120000" ∧
    ([] : List ScrapedProject) ≠ [{ id := "p1" }] :=
  ⟨rfl, by decide⟩

/-- **C2 (amended).** Batch output filenames are distinct across any two
invocations with the same batch id whose formatted timestamps differ (the
timestamp has second resolution, so attempts one second or more apart never
collide); this holds for both `complete_batch` and `save_batch_data` names. -/
theorem C2_distinct_timestamp_distinct_filename
    (b b2 : BatchInfo) (r r2 : List ScrapedProject) (t t2 : String)
    (hid : b.batch_id = b2.batch_id) (ht : t ≠ t2) :
    complete_batch_file_name b r t ≠ complete_batch_file_name b2 r2 t2 ∧
    save_batch_data_file_name b.batch_id t
      ≠ save_batch_data_file_name b2.batch_id t2 := by
  constructor
  · intro he
    simp only [complete_batch_file_name, ← hid] at he
    exact ht (string_append_inj_mid ("batch_" ++ b.batch_id ++ "_") ".json"
      t t2 he)
  · intro he
    simp only [save_batch_data_file_name, ← hid] at he
    exact ht (string_append_inj_mid ("projects_batch_" ++ b.batch_id ++ "_")
      ".json" t t2 he)

/-- Witness for the amended C2: two attempts of batch `001` one second
apart. -/
theorem C2_distinct_timestamp_distinct_filename_witness :
    complete_batch_file_name
        { batch_id := "001", start_index := 0, end_index := 50,
          project_count := 50, status := ScrapeStatus.pending }
        [] "20250101_120000"
      ≠ complete_batch_file_name
        { batch_id := "001", start_index := 0, end_index := 50,
          project_count := 50, status := ScrapeStatus.pending }
        [] "20250101_120001" ∧
    save_batch_data_file_name
        ({ batch_id := "001", start_index := 0, end_index := 50,
           project_count := 50,
           status := ScrapeStatus.pending } : BatchInfo).batch_id
        "20250101_120000"
      ≠ save_batch_data_file_name
        ({ batch_id := "001", start_index := 0, end_index := 50,
           project_count := 50,
           status := ScrapeStatus.pending } : BatchInfo).batch_id
        "20250101_120001" :=
  C2_distinct_timestamp_distinct_filename _ _ [] [] _ _ rfl (by decide)

/-! ## Claim C3 -/

/-- **C3 counterexample.** In `IndexRegenerator._merge_data` the scraped batch
value wins over the catalog for an overlapping key: a record whose page data
carries `brand = "ScrapedBrand"` is merged to `"ScrapedBrand"` even though the
catalog row for the same id says `"CatalogBrand"` — refuting the claim that
every overlapping key takes the catalog's value. -/
theorem C3_counterexample :
    (merge_data
        [{ id := "p1", brand := some "ScrapedBrand" }]
        [{ project_id := "p1", url := "u", title := "t",
           brand := "CatalogBrand", agency := "a", publish_date := "d",
           last_updated := "" }]).map MergedIdxProject.brand
      = ["ScrapedBrand"] ∧
    ("ScrapedBrand" : String) ≠ "CatalogBrand" :=
  ⟨by decide, by decide⟩

/-- **C3 (amended).** Precedence is split between the two merge
implementations: in `BatchManager._merge_completed_data` every consolidated
record takes `url`, `title`, `brand`, `agency` and `publish_date` from its
catalog row (the scraped record never contributes these keys), whereas in
`IndexRegenerator._merge_data` the scraped value wins for each of these keys
whenever the key is present, the catalog being only the fallback for an
absent key. -/
theorem C3_catalog_precedence_split
    (master : List MasterProject) (combined : List ScrapedProject)
    (p : ScrapedProject) (mi : Option MasterProject) :
    (∀ r ∈ merge_completed_data master combined,
        ∃ m ∈ master, r.id = m.project_id ∧ r.url = m.url ∧
          r.title = m.title ∧ r.brand = m.brand ∧ r.agency = m.agency ∧
          r.publish_date = m.publish_date) ∧
    (∀ b, p.brand = some b → (merge_data_one p mi).brand = b) ∧
    (∀ u, p.url = some u → (merge_data_one p mi).url = u) ∧
    (∀ t, p.title = some t → (merge_data_one p mi).title = t) ∧
    (∀ a, p.agency = some a → (merge_data_one p mi).agency = a) ∧
    (∀ dt, p.publish_date = some dt →
        (merge_data_one p mi).publish_date = dt) ∧
    (p.brand = none →
        (merge_data_one p mi).brand = (mi.map MasterProject.brand).getD "") := by
  refine ⟨?_, ?_, ?_, ?_, ?_, ?_, ?_⟩
  · intro r hr
    simp only [merge_completed_data, List.mem_map] at hr
    obtain ⟨m, hm, rfl⟩ := hr
    exact ⟨m, hm, rfl, rfl, rfl, rfl, rfl, rfl⟩
  · intro b hb; simp [merge_data_one, hb]
  · intro u hu; simp [merge_data_one, hu]
  · intro t htl; simp [merge_data_one, htl]
  · intro a ha; simp [merge_data_one, ha]
  · intro dt hdt; simp [merge_data_one, hdt]
  · intro hn; simp [merge_data_one, hn]

/-- Witness for the amended C3: a scraped brand wins in `_merge_data`. -/
theorem C3_catalog_precedence_split_witness :
    (merge_data_one { id := "p1", brand := some "B" } none).brand = "B" :=
  (C3_catalog_precedence_split [] [] { id := "p1", brand := some "B" }
    none).2.1 "B" rfl

/-! ## Claim C4 -/

/-- **C4 counterexample.** `_merge_completed_data` keeps the *first* record of
the batch-scan order for each id, not the one with the most recent
`scraped_at`: with two records for id `p1`, the consolidated output carries
the extras of the older record (`scraped_at` `2024-01-01`), although a record
with the lexicographically (and chronologically) later `scraped_at`
`2024-06-01` is present. -/
theorem C4_counterexample :
    (merge_completed_data
        [{ project_id := "p1", url := "u", title := "t", brand := "b",
           agency := "a", publish_date := "", last_updated := "" }]
        [{ id := "p1", scraped_at := "2024-01-01 00:00:00",
           description := some "old" },
         { id := "p1", scraped_at := "2024-06-01 00:00:00",
           description := some "new" }]).map CombinedProject.extra
      = [some (scraped_extras
          { id := "p1", scraped_at := "2024-01-01 00:00:00",
            description := some "old" })] ∧
    (("2024-01-01 00:00:00" : String).data
        < ("2024-06-01 00:00:00" : String).data) ∧
    scraped_extras { id := "p1", scraped_at := "2024-01-01 00:00:00",
                     description := some "old" }
      ≠ scraped_extras { id := "p1", scraped_at := "2024-06-01 00:00:00",
                         description := some "new" } :=
  ⟨by decide, by decide, by decide⟩

/-- **C4 (amended).** `_merge_completed_data` outputs exactly one record per
catalog row (its ids are the catalog ids, in order, hence duplicate-free when
the catalog ids are), and for each id the record kept is the *first* matching
record in the batch-scan order of `combined` — `scraped_at` is never
consulted. -/
theorem C4_merge_keeps_first_match
    (master : List MasterProject) (pre post : List ScrapedProject)
    (r : ScrapedProject)
    (hpre : ∀ q ∈ pre, q.id ≠ r.id) :
    ((merge_completed_data master (pre ++ r :: post)).map CombinedProject.id
        = master.map MasterProject.project_id) ∧
    ((master.map MasterProject.project_id).Nodup →
        ((merge_completed_data master (pre ++ r :: post)).map
            CombinedProject.id).Nodup) ∧
    (∀ c ∈ merge_completed_data master (pre ++ r :: post),
        c.id = r.id → c.extra = some (scraped_extras r)) := by
  have hids : (merge_completed_data master (pre ++ r :: post)).map
      CombinedProject.id = master.map MasterProject.project_id := by
    simp only [merge_completed_data, List.map_map]
    rfl
  refine ⟨hids, fun h => hids ▸ h, ?_⟩
  intro c hc hcid
  simp only [merge_completed_data, List.mem_map] at hc
  obtain ⟨m, _, rfl⟩ := hc
  have hmid : m.project_id = r.id := hcid
  have hfind : (pre ++ r :: post).find? (fun p => p.id == m.project_id)
      = some r := by
    apply find?_first
    · intro x hx
      simp only [hmid, beq_eq_false_iff_ne, ne_eq]
      exact hpre x hx
    · simp [hmid]
  simp [hfind]

/-- Witness for the amended C4: a single catalog row and a single scraped
record for its id. -/
theorem C4_merge_keeps_first_match_witness :
    (merge_completed_data
        [{ project_id := "p1", url := "u", title := "t", brand := "b",
           agency := "a", publish_date := "", last_updated := "" }]
        ([] ++ ({ id := "p1" } : ScrapedProject) :: [])).map
        CombinedProject.id
      = [({ project_id := "p1", url := "u", title := "t", brand := "b",
            agency := "a", publish_date := "",
            last_updated := "" } : MasterProject)].map
          MasterProject.project_id :=
  (C4_merge_keeps_first_match
    [{ project_id := "p1", url := "u", title := "t", brand := "b",
       agency := "a", publish_date := "", last_updated := "" }]
    [] [] { id := "p1" } (by simp)).1

/-! ## Claim C5: bucket lemmas for the index fold -/

/-- Looking a key up after `index_add`: the addressed bucket grows by the
appended ref, every other bucket is unchanged. -/
theorem index_get_index_add (idx : RefIndex) (k k' : String) (ref : ProjectRef) :
    index_get (index_add idx k ref) k' =
      if k' = k then index_get idx k' ++ [ref] else index_get idx k' := by
  induction idx with
  | nil =>
      by_cases h : k' = k
      · subst h; simp [index_add, index_get]
      · have h' : ¬ k = k' := fun hh => h hh.symm
        simp [index_add, index_get, h, h']
  | cons kv rest ih =>
      obtain ⟨k0, refs⟩ := kv
      by_cases h0 : k0 = k
      · subst h0
        by_cases h : k' = k0
        · subst h; simp [index_add, index_get]
        · have h' : ¬ k0 = k' := fun hh => h hh.symm
          simp [index_add, index_get, h, h']
      · by_cases h : k' = k0
        · subst h
          have h1 : ¬ k' = k := fun hh => h0 (hh ▸ rfl)
          simp [index_add, index_get, h0, h1]
        · have h' : ¬ k0 = k' := fun hh => h hh.symm
          simp [index_add, index_get, h0, h', ih]

/-- Bucket membership survives any further `index_add`. -/
theorem mem_index_get_index_add (idx : RefIndex) (k k2 : String)
    (r r2 : ProjectRef) (h : r ∈ index_get idx k) :
    r ∈ index_get (index_add idx k2 r2) k := by
  rw [index_get_index_add]
  by_cases hk : k = k2
  · subst hk; simp [h]
  · simp [hk, h]

/-- The keyword step never touches the brand index. -/
theorem keyword_step_brand_index (ref : ProjectRef) (st : GlobalSearchIndex)
    (kw : String) : (keyword_step ref st kw).brand_index = st.brand_index := by
  simp only [keyword_step]; split <;> rfl

/-- The brand step never touches the keyword index. -/
theorem brand_step_keyword_index (p : MergedIdxProject)
    (st : GlobalSearchIndex) :
    (brand_step p st).keyword_index = st.keyword_index := by
  simp only [brand_step]; split <;> rfl

/-- The category step never touches the brand index. -/
theorem category_step_brand_index (p : MergedIdxProject)
    (st : GlobalSearchIndex) :
    (category_step p st).brand_index = st.brand_index := by
  simp only [category_step]; split <;> rfl

/-- The category step never touches the keyword index. -/
theorem category_step_keyword_index (p : MergedIdxProject)
    (st : GlobalSearchIndex) :
    (category_step p st).keyword_index = st.keyword_index := by
  simp only [category_step]; split <;> rfl

/-- The industry step never touches the brand index. -/
theorem industry_step_brand_index (p : MergedIdxProject)
    (st : GlobalSearchIndex) :
    (industry_step p st).brand_index = st.brand_index := by
  simp only [industry_step]; split <;> rfl

/-- The industry step never touches the keyword index. -/
theorem industry_step_keyword_index (p : MergedIdxProject)
    (st : GlobalSearchIndex) :
    (industry_step p st).keyword_index = st.keyword_index := by
  simp only [industry_step]; split <;> rfl

/-- The whole keyword loop never touches the brand index. -/
theorem keywords_foldl_brand_index (ref : ProjectRef) (l : List String)
    (st : GlobalSearchIndex) :
    (l.foldl (keyword_step ref) st).brand_index = st.brand_index := by
  induction l generalizing st with
  | nil => rfl
  | cons a tl ih =>
      simp only [List.foldl_cons]
      rw [ih, keyword_step_brand_index]

/-- Keyword-bucket membership survives one keyword step. -/
theorem mem_keyword_step (ref : ProjectRef) (st : GlobalSearchIndex)
    (kw k : String) (r : ProjectRef)
    (h : r ∈ index_get st.keyword_index k) :
    r ∈ index_get (keyword_step ref st kw).keyword_index k := by
  simp only [keyword_step]
  split
  · exact mem_index_get_index_add _ _ _ _ _ h
  · exact h

/-- Keyword-bucket membership survives the whole keyword loop. -/
theorem mem_keywords_foldl (ref : ProjectRef) (l : List String)
    (st : GlobalSearchIndex) (k : String) (r : ProjectRef)
    (h : r ∈ index_get st.keyword_index k) :
    r ∈ index_get (l.foldl (keyword_step ref) st).keyword_index k := by
  induction l generalizing st with
  | nil => exact h
  | cons a tl ih => exact ih _ (mem_keyword_step _ _ _ _ _ h)

/-- A keyword of the list with non-empty stripped value gets the ref into its
bucket during the keyword loop. -/
theorem keyword_added_foldl (ref : ProjectRef) (l : List String)
    (st : GlobalSearchIndex) (kw : String)
    (hkw : kw ∈ l) (hne : (py_strip kw) ≠ "") :
    ref ∈ index_get (l.foldl (keyword_step ref) st).keyword_index (py_strip kw) := by
  revert hkw
  induction l generalizing st with
  | nil => intro h; cases h
  | cons a tl ih =>
      intro hkw
      rw [List.foldl_cons]
      rcases List.mem_cons.mp hkw with rfl | hmem
      · apply mem_keywords_foldl
        simp only [keyword_step]
        rw [if_pos hne]
        dsimp only
        rw [index_get_index_add]
        simp
      · exact ih (keyword_step ref st a) hmem

/-- Brand-bucket membership survives one full per-project step. -/
theorem mem_brand_index_one (st : GlobalSearchIndex) (p : MergedIdxProject)
    (k : String) (r : ProjectRef)
    (h : r ∈ index_get st.brand_index k) :
    r ∈ index_get (index_one_project st p).brand_index k := by
  simp only [index_one_project, industry_step_brand_index,
    category_step_brand_index, keywords_foldl_brand_index]
  simp only [brand_step]
  split
  · exact mem_index_get_index_add _ _ _ _ _ h
  · exact h

/-- Keyword-bucket membership survives one full per-project step. -/
theorem mem_keyword_index_one (st : GlobalSearchIndex) (p : MergedIdxProject)
    (k : String) (r : ProjectRef)
    (h : r ∈ index_get st.keyword_index k) :
    r ∈ index_get (index_one_project st p).keyword_index k := by
  simp only [index_one_project, industry_step_keyword_index,
    category_step_keyword_index]
  apply mem_keywords_foldl
  rw [brand_step_keyword_index]
  exact h

/-- A project with non-empty stripped brand gets its ref into the bucket of
the *stripped* (not lower-cased) brand during its own step. -/
theorem brand_added_one (st : GlobalSearchIndex) (p : MergedIdxProject)
    (h : (py_strip p.brand) ≠ "") :
    project_ref_of p ∈
      index_get (index_one_project st p).brand_index (py_strip p.brand) := by
  simp only [index_one_project, industry_step_brand_index,
    category_step_brand_index, keywords_foldl_brand_index]
  simp only [brand_step]
  rw [if_pos h]
  dsimp only
  rw [index_get_index_add]
  simp

/-- A project's keyword with non-empty stripped value gets the project's ref
into that keyword's bucket during the project's own step. -/
theorem keyword_added_one (st : GlobalSearchIndex) (p : MergedIdxProject)
    (kw : String) (hkw : kw ∈ p.keywords) (hne : (py_strip kw) ≠ "") :
    project_ref_of p ∈
      index_get (index_one_project st p).keyword_index (py_strip kw) := by
  simp only [index_one_project, industry_step_keyword_index,
    category_step_keyword_index]
  exact keyword_added_foldl _ _ _ _ hkw hne

/-- Brand-bucket membership survives the fold over any further projects. -/
theorem mem_brand_foldl (l : List MergedIdxProject) (st : GlobalSearchIndex)
    (k : String) (r : ProjectRef) (h : r ∈ index_get st.brand_index k) :
    r ∈ index_get (l.foldl index_one_project st).brand_index k := by
  induction l generalizing st with
  | nil => exact h
  | cons a tl ih => exact ih _ (mem_brand_index_one _ _ _ _ h)

/-- Keyword-bucket membership survives the fold over any further projects. -/
theorem mem_keyword_foldl (l : List MergedIdxProject) (st : GlobalSearchIndex)
    (k : String) (r : ProjectRef) (h : r ∈ index_get st.keyword_index k) :
    r ∈ index_get (l.foldl index_one_project st).keyword_index k := by
  induction l generalizing st with
  | nil => exact h
  | cons a tl ih => exact ih _ (mem_keyword_index_one _ _ _ _ h)

/-- Any project of the fold gets its ref into its stripped brand's bucket. -/
theorem brand_added_foldl (l : List MergedIdxProject)
    (st : GlobalSearchIndex) (p : MergedIdxProject) (hp : p ∈ l)
    (h : (py_strip p.brand) ≠ "") :
    project_ref_of p ∈
      index_get (l.foldl index_one_project st).brand_index (py_strip p.brand) := by
  revert hp
  induction l generalizing st with
  | nil => intro h0; cases h0
  | cons a tl ih =>
      intro hp
      rw [List.foldl_cons]
      rcases List.mem_cons.mp hp with rfl | hmem
      · exact mem_brand_foldl tl (index_one_project st p) _ _
          (brand_added_one st p h)
      · exact ih _ hmem

/-- Any project of the fold gets its ref into the bucket of each of its
non-empty stripped keywords. -/
theorem keyword_added_generate (l : List MergedIdxProject)
    (st : GlobalSearchIndex) (p : MergedIdxProject) (kw : String)
    (hp : p ∈ l) (hkw : kw ∈ p.keywords) (hne : (py_strip kw) ≠ "") :
    project_ref_of p ∈
      index_get (l.foldl index_one_project st).keyword_index (py_strip kw) := by
  revert hp
  induction l generalizing st with
  | nil => intro h0; cases h0
  | cons a tl ih =>
      intro hp
      rw [List.foldl_cons]
      rcases List.mem_cons.mp hp with rfl | hmem
      · exact mem_keyword_foldl tl (index_one_project st p) _ _
          (keyword_added_one st p kw hkw hne)
      · exact ih _ hmem

/-! ## Claim C5 -/

/-- **C5 counterexample.** `_generate_global_index` keys buckets by the
*stripped* field value without lower-casing: two records whose brands differ
only in letter case (`"NIKE"` vs `"nike"`) land in two different buckets,
refuting the claimed lower-casing. -/
theorem C5_counterexample :
    (generate_global_index
        [{ id := "1", title := "A", brand := "NIKE", batch := "b" },
         { id := "2", title := "B", brand := "nike", batch := "b" }]).brand_index
      = [("NIKE", [{ batch := "b", id := "1", title := "A" }]),
         ("nike", [{ batch := "b", id := "2", title := "B" }])] ∧
    ("NIKE" : String) ≠ "nike" :=
  ⟨by decide, by decide⟩

/-- **C5 (amended).** `_generate_global_index` uses the whitespace-stripped
but case-preserved value as the bucket key: every project whose stripped
brand is non-empty contributes its ref to the bucket keyed by that stripped
value, and for the multi-valued keyword field the project's ref is appended
to the bucket of every keyword in the list whose stripped value is non-empty
(values differing only in case land in different buckets, as the
counterexample shows). -/
theorem C5_index_strip_no_lowercase
    (projects : List MergedIdxProject) (p : MergedIdxProject)
    (hp : p ∈ projects) :
    ((py_strip p.brand) ≠ "" →
        project_ref_of p ∈
          index_get (generate_global_index projects).brand_index
            (py_strip p.brand)) ∧
    (∀ kw ∈ p.keywords, (py_strip kw) ≠ "" →
        project_ref_of p ∈
          index_get (generate_global_index projects).keyword_index
            (py_strip kw)) := by
  constructor
  · intro h
    exact brand_added_foldl projects empty_global_index p hp h
  · intro kw hkw hne
    exact keyword_added_generate projects empty_global_index p kw hp hkw hne

/-- Witness for the amended C5: one record with brand `"NIKE"` and keyword
`"ad"`. -/
theorem C5_index_strip_no_lowercase_witness :
    ({ batch := "b", id := "1", title := "A" } : ProjectRef) ∈
      index_get (generate_global_index
        [{ id := "1", title := "A", brand := "NIKE", batch := "b",
           keywords := ["ad"] }]).brand_index (py_strip "NIKE") :=
  (C5_index_strip_no_lowercase
    [{ id := "1", title := "A", brand := "NIKE", batch := "b",
       keywords := ["ad"] }]
    { id := "1", title := "A", brand := "NIKE", batch := "b",
      keywords := ["ad"] } (by simp)).1 (by decide)
